import Mathlib

/-!
Shallow embedding of the sale-and-vesting accounting engine of
`programs/solana-launchpad/src/lib.rs`.

Modelling conventions:
* `u64` fields are `Nat`; `i64` fields are `Int`.
* Unchecked Rust arithmetic follows overflow-checking semantics (the Anchor
  build profile enables `overflow-checks`): an operation whose result leaves
  the 64-bit range aborts the transaction.  `checked_mul` / `checked_div`
  return `Option`, and the source's `.unwrap()` on `none` likewise aborts.
* A Solana instruction is atomic: any error or abort leaves every account
  unchanged, so the embedding returns a result value (`ok` with the new
  account states, `err` with the program error, or `abort` for a panic)
  and the "state unchanged on failure" reading is made explicit by the
  `purchase_state` wrapper below.
* External collaborators (SOL/token transfers, signer checks) always
  succeed; `Clock::get()?.unix_timestamp` is the explicit `now` argument.
-/

/-- 2^64, the first value outside the `u64` range. -/
def u64Bound : Nat := 2 ^ 64

/-- 2^63, the first value outside the nonnegative `i64` range. -/
def i64Bound : Int := 2 ^ 63

/-- The Rust cast `d as i64` applied to a `u64` value `d`. -/
def u64AsI64 (d : Nat) : Int :=
  if d < 2 ^ 63 then (d : Int) else (d : Int) - 2 ^ 64

/-- Rust `u64::checked_mul`: `none` exactly when the product overflows. -/
def checkedMul (a b : Nat) : Option Nat :=
  if a * b < u64Bound then some (a * b) else none

/-- Rust `u64::checked_div`: `none` exactly when the divisor is zero. -/
def checkedDiv (a b : Nat) : Option Nat :=
  if b = 0 then none else some (a / b)

/-- The `LaunchpadError` enum of the source (`#[error_code]`), verbatim. -/
inductive LaunchpadError where
  | ContributionTooLow
  | ContributionExceeded
  | HardCapReached
  | InsufficientTokens
  | VestingNotStarted
  | NothingToClaim
deriving DecidableEq, Repr

/-- Outcome of one instruction: success with the new account states, a
program error, or an abort (Rust panic, e.g. `.unwrap()` on `none` or an
overflow-checked arithmetic overflow).  Errors and aborts roll the
transaction back, so they carry no state. -/
inductive TxResult (σ : Type) where
  | ok (s : σ)
  | err (e : LaunchpadError)
  | abort
deriving DecidableEq, Repr

/-- The `TokenSale` account. -/
structure TokenSale where
  registrant : Nat
  token_mint : Nat
  soft_cap : Nat
  hard_cap : Nat
  total_raised : Nat
  is_active : Bool
deriving DecidableEq, Repr

/-- The `SaleRound` account. -/
structure SaleRound where
  price_per_token : Nat
  tokens_available : Nat
  tokens_sold : Nat
  min_contribution : Nat
  max_contribution : Nat
  start_time : Int
  end_time : Int
  is_active : Bool
deriving DecidableEq, Repr

/-- The `VestingSchedule` account. -/
structure VestingSchedule where
  investor : Nat
  total_allocation : Nat
  released : Nat
  start_time : Int
  duration : Nat
deriving DecidableEq, Repr

/-- `add_sale_round`: writes the fields of the fresh `sale_round` account;
the mutable `token_sale` account is never read or written, so it is passed
through unchanged. -/
def add_sale_round (token_sale : TokenSale)
    (price_per_token tokens_available min_contribution max_contribution : Nat)
    (start_time end_time : Int) : TokenSale × SaleRound :=
  (token_sale,
   { price_per_token := price_per_token
     tokens_available := tokens_available
     tokens_sold := 0
     min_contribution := min_contribution
     max_contribution := max_contribution
     start_time := start_time
     end_time := end_time
     is_active := false })

/-- `activate_sale_round`: unconditionally sets `is_active`. -/
def activate_sale_round (sale_round : SaleRound) : SaleRound :=
  { sale_round with is_active := true }

/-- `purchase_tokens`: the three `require!` validations in source order, the
checked pricing computation with its two `.unwrap()`s, the supply check,
the bookkeeping updates, and the creation of the vesting schedule with the
hard-coded 30-day duration. -/
def purchase_tokens (sale_round : SaleRound) (token_sale : TokenSale)
    (investor : Nat) (amount : Nat) (now : Int) :
    TxResult (SaleRound × TokenSale × VestingSchedule) :=
  if amount < sale_round.min_contribution then .err .ContributionTooLow
  else if sale_round.max_contribution < amount then .err .ContributionExceeded
  else if u64Bound ≤ token_sale.total_raised + amount then .abort
  else if token_sale.hard_cap < token_sale.total_raised + amount then
    .err .HardCapReached
  else
    match checkedMul amount (10 ^ 9) with
    | none => .abort
    | some scaled =>
      match checkedDiv scaled sale_round.price_per_token with
      | none => .abort
      | some tokens =>
        if sale_round.tokens_available < tokens then .err .InsufficientTokens
        else if u64Bound ≤ sale_round.tokens_sold + tokens then .abort
        else
          .ok
            ({ sale_round with
                tokens_available := sale_round.tokens_available - tokens
                tokens_sold := sale_round.tokens_sold + tokens },
             { token_sale with
                total_raised := token_sale.total_raised + amount },
             { investor := investor
               total_allocation := tokens
               released := 0
               start_time := now
               duration := 30 * 86400 })

/-- The `sale_round` and `token_sale` accounts after a `purchase_tokens`
transaction: updated on success, rolled back (unchanged) on error/abort. -/
def purchase_state (sale_round : SaleRound) (token_sale : TokenSale)
    (investor : Nat) (amount : Nat) (now : Int) : SaleRound × TokenSale :=
  match purchase_tokens sale_round token_sale investor amount now with
  | .ok (r, s, _) => (r, s)
  | _ => (sale_round, token_sale)

/-- `claim_tokens`: `elapsed = now - start_time` (aborts if outside `i64`),
the `VestingNotStarted` guard, the two-branch vested-amount computation
(`elapsed >= duration as i64` releases the remainder, otherwise the linear
formula `total_allocation * elapsed / duration` — note `released` is not
subtracted), the `NothingToClaim` guard, and `released += vested_amount`.
Returns the new schedule and the amount transferred. -/
def claim_tokens (vesting : VestingSchedule) (now : Int) :
    TxResult (VestingSchedule × Nat) :=
  let elapsed := now - vesting.start_time
  if elapsed < -i64Bound ∨ i64Bound ≤ elapsed then .abort
  else if elapsed < 0 then .err .VestingNotStarted
  else if u64AsI64 vesting.duration ≤ elapsed then
    if vesting.total_allocation < vesting.released then .abort
    else
      let vested := vesting.total_allocation - vesting.released
      if vested = 0 then .err .NothingToClaim
      else if u64Bound ≤ vesting.released + vested then .abort
      else .ok ({ vesting with released := vesting.released + vested }, vested)
  else
    if u64Bound ≤ vesting.total_allocation * elapsed.toNat then .abort
    else
      let vested := vesting.total_allocation * elapsed.toNat / vesting.duration
      if vested = 0 then .err .NothingToClaim
      else if u64Bound ≤ vesting.released + vested then .abort
      else .ok ({ vesting with released := vesting.released + vested }, vested)

/-- The linear vested-to-date formula of the pre-completion branch. -/
def linearVested (vesting : VestingSchedule) (now : Int) : Nat :=
  vesting.total_allocation * (now - vesting.start_time).toNat / vesting.duration

example :
    claim_tokens ⟨0, 1000000, 0, 0, 2592000⟩ 1296000 =
      .ok (⟨0, 1000000, 500000, 0, 2592000⟩, 500000) := by decide

/-- Inversion of a successful `purchase_tokens`: every validation passed and
the three output accounts have exactly the shapes written by the source. -/
lemma purchase_tokens_ok_inv {r : SaleRound} {s : TokenSale}
    {inv amount : Nat} {now : Int}
    {r' : SaleRound} {s' : TokenSale} {g : VestingSchedule}
    (h : purchase_tokens r s inv amount now = .ok (r', s', g)) :
    r.min_contribution ≤ amount ∧ amount ≤ r.max_contribution ∧
    s.total_raised + amount < u64Bound ∧
    s.total_raised + amount ≤ s.hard_cap ∧
    amount * 10 ^ 9 < u64Bound ∧ r.price_per_token ≠ 0 ∧
    amount * 10 ^ 9 / r.price_per_token ≤ r.tokens_available ∧
    r.tokens_sold + amount * 10 ^ 9 / r.price_per_token < u64Bound ∧
    r' = { r with
            tokens_available :=
              r.tokens_available - amount * 10 ^ 9 / r.price_per_token
            tokens_sold :=
              r.tokens_sold + amount * 10 ^ 9 / r.price_per_token } ∧
    s' = { s with total_raised := s.total_raised + amount } ∧
    g = ⟨inv, amount * 10 ^ 9 / r.price_per_token, 0, now, 30 * 86400⟩ := by
  unfold purchase_tokens at h
  split_ifs at h with h1 h2 h3 h4
  rcases hmul : checkedMul amount (10 ^ 9) with _ | scaled <;> rw [hmul] at h <;>
    dsimp only at h
  · cases h
  rcases hdiv : checkedDiv scaled r.price_per_token with _ | tokens <;>
    rw [hdiv] at h <;> dsimp only at h
  · cases h
  unfold checkedMul at hmul
  have hm : amount * 10 ^ 9 < u64Bound := by
    by_contra hc
    rw [if_neg hc] at hmul
    cases hmul
  rw [if_pos hm] at hmul
  obtain rfl : scaled = amount * 10 ^ 9 := (Option.some.inj hmul).symm
  unfold checkedDiv at hdiv
  have hz : r.price_per_token ≠ 0 := by
    intro hc
    rw [if_pos hc] at hdiv
    cases hdiv
  rw [if_neg hz] at hdiv
  obtain rfl : tokens = amount * 10 ^ 9 / r.price_per_token :=
    (Option.some.inj hdiv).symm
  split_ifs at h with h5 h6
  injection h with h'
  injection h' with hA hBC
  injection hBC with hB hC
  exact ⟨by omega, by omega, by omega, by omega, hm, hz, by omega, by omega,
    hA.symm, hB.symm, hC.symm⟩

/-- C7: when the contribution bounds, the hard cap, a nonzero price, the
overflow bound on `amount * 10^9`, the supply check and the `tokens_sold`
bound all hold, the purchase succeeds granting exactly
`amount * 10^9 / price_per_token` tokens (truncating division), with
`tokens_sold` increased by that amount and `total_raised` increased by
`amount`. -/
theorem purchase_tokens_pricing_formula (r : SaleRound) (s : TokenSale)
    (inv amount : Nat) (now : Int)
    (hmin : r.min_contribution ≤ amount) (hmax : amount ≤ r.max_contribution)
    (hcap : s.total_raised + amount ≤ s.hard_cap)
    (hfit : s.total_raised + amount < u64Bound)
    (hp : r.price_per_token ≠ 0)
    (hmul : amount * 10 ^ 9 < u64Bound)
    (havail : amount * 10 ^ 9 / r.price_per_token ≤ r.tokens_available)
    (hsold : r.tokens_sold + amount * 10 ^ 9 / r.price_per_token < u64Bound) :
    purchase_tokens r s inv amount now =
      .ok ({ r with
              tokens_available :=
                r.tokens_available - amount * 10 ^ 9 / r.price_per_token
              tokens_sold :=
                r.tokens_sold + amount * 10 ^ 9 / r.price_per_token },
           { s with total_raised := s.total_raised + amount },
           ⟨inv, amount * 10 ^ 9 / r.price_per_token, 0, now, 30 * 86400⟩) := by
  unfold purchase_tokens
  rw [if_neg (by omega), if_neg (by omega), if_neg (by omega),
    if_neg (by omega)]
  unfold checkedMul
  rw [if_pos hmul]
  dsimp only
  unfold checkedDiv
  rw [if_neg hp]
  dsimp only
  rw [if_neg (by omega), if_neg (by omega)]

/-- C10: `add_sale_round` leaves the `token_sale` account it is invoked
against completely unchanged, and the round it creates is determined by the
round parameters alone — it is identical whatever sale is passed in, so it
carries no stored link back to the sale. -/
theorem add_sale_round_frame (s s' : TokenSale)
    (p a mi ma : Nat) (st et : Int) :
    (add_sale_round s p a mi ma st et).1 = s ∧
    (add_sale_round s p a mi ma st et).2 =
      (add_sale_round s' p a mi ma st et).2 :=
  ⟨rfl, rfl⟩

/-- C3: `purchase_tokens` never reads `is_active`.  A concrete purchase
against a round with `is_active = false` (all other validations satisfied)
succeeds and mints a vesting grant, contradicting the claim that only
active rounds can produce one. -/
theorem purchase_tokens_accepts_inactive_round :
    (SaleRound.mk 1000000 10000000000 0 0 10000000 0 0 false).is_active
        = false ∧
    purchase_tokens (SaleRound.mk 1000000 10000000000 0 0 10000000 0 0 false)
        (TokenSale.mk 0 0 0 10000000 0 false) 7 1000000 0 =
      .ok (SaleRound.mk 1000000 9000000000 1000000000 0 10000000 0 0 false,
           TokenSale.mk 0 0 0 10000000 1000000 false,
           VestingSchedule.mk 7 1000000000 0 0 2592000) :=
  ⟨rfl, by decide⟩

/-- C2: the invariant `released ≤ total_allocation` is not preserved.
Starting from a freshly minted grant (`total_allocation = 2`,
`released = 0`, `duration = 2`) and claiming three times at the same
instant `elapsed = 1`, each successful claim releases the full
linear-to-date amount again, driving `released` to `3`, strictly above
`total_allocation = 2`. -/
theorem claim_tokens_over_release_breaks_invariant :
    claim_tokens ⟨9, 2, 0, 0, 2⟩ 1 = .ok (⟨9, 2, 1, 0, 2⟩, 1) ∧
    claim_tokens ⟨9, 2, 1, 0, 2⟩ 1 = .ok (⟨9, 2, 2, 0, 2⟩, 1) ∧
    claim_tokens ⟨9, 2, 2, 0, 2⟩ 1 = .ok (⟨9, 2, 3, 0, 2⟩, 1) ∧
    (VestingSchedule.mk 9 2 3 0 2).total_allocation <
      (VestingSchedule.mk 9 2 3 0 2).released := by
  decide

/-- C6 counterexample: a purchase against a round with
`price_per_token = 0` that passes the contribution and cap checks does not
return a dedicated `DivisionByZero`/`ArithmeticOverflow` error — the
source's `.unwrap()` on `checked_div`'s `none` panics, i.e. the
transaction traps (`abort`), and no such variant exists in
`LaunchpadError` at all. -/
theorem purchase_tokens_zero_price_counterexample :
    purchase_tokens (SaleRound.mk 0 10000000000 0 0 100 0 0 true)
        (TokenSale.mk 0 0 0 1000 0 true) 1 10 0 = .abort := by
  decide

/-- C6 amended: a purchase whose pricing computation divides by a zero
price or overflows (`amount * 10^9 ≥ 2^64`), and which passes the
contribution and hard-cap validations, aborts the transaction (a Rust
panic via `.unwrap()`), leaving both accounts unchanged; no dedicated
error is returned. -/
theorem purchase_tokens_zero_price_or_overflow_aborts
    (r : SaleRound) (s : TokenSale) (inv amount : Nat) (now : Int)
    (hmin : r.min_contribution ≤ amount) (hmax : amount ≤ r.max_contribution)
    (hcap : s.total_raised + amount ≤ s.hard_cap)
    (hfit : s.total_raised + amount < u64Bound)
    (hz : r.price_per_token = 0 ∨ u64Bound ≤ amount * 10 ^ 9) :
    purchase_tokens r s inv amount now = .abort ∧
    purchase_state r s inv amount now = (r, s) := by
  have ha : purchase_tokens r s inv amount now = .abort := by
    unfold purchase_tokens
    rw [if_neg (by omega), if_neg (by omega), if_neg (by omega),
      if_neg (by omega)]
    unfold checkedMul
    rcases hz with hz | hz
    · by_cases hm : amount * 10 ^ 9 < u64Bound
      · rw [if_pos hm]
        dsimp only
        unfold checkedDiv
        rw [if_pos hz]
      · rw [if_neg hm]
    · rw [if_neg (by omega)]
  refine ⟨ha, ?_⟩
  unfold purchase_state
  rw [ha]

/-- C6 amended, witness at `price_per_token = 0`. -/
theorem purchase_tokens_zero_price_or_overflow_aborts_witness :
    purchase_tokens (SaleRound.mk 0 20000000000 5 0 100 0 0 true)
        (TokenSale.mk 0 0 0 1000 0 true) 1 10 0 = .abort ∧
    purchase_state (SaleRound.mk 0 20000000000 5 0 100 0 0 true)
        (TokenSale.mk 0 0 0 1000 0 true) 1 10 0 =
      (SaleRound.mk 0 20000000000 5 0 100 0 0 true,
       TokenSale.mk 0 0 0 1000 0 true) :=
  purchase_tokens_zero_price_or_overflow_aborts
    (SaleRound.mk 0 20000000000 5 0 100 0 0 true)
    (TokenSale.mk 0 0 0 1000 0 true) 1 10 0
    (by decide) (by decide) (by decide) (by decide) (Or.inl (by decide))

/-- C4: when the contribution bounds pass and the mathematically exact sum
`total_raised + amount` fits in `u64`, a purchase that would exceed
`hard_cap` is rejected with `HardCapReached` and leaves both accounts
unchanged; and every successful purchase ends with
`total_raised ≤ hard_cap`. -/
theorem purchase_tokens_hard_cap_enforced
    (r : SaleRound) (s : TokenSale) (inv amount : Nat) (now : Int)
    (hmin : r.min_contribution ≤ amount) (hmax : amount ≤ r.max_contribution)
    (hfit : s.total_raised + amount < u64Bound) :
    (s.hard_cap < s.total_raised + amount →
      purchase_tokens r s inv amount now = .err .HardCapReached ∧
      purchase_state r s inv amount now = (r, s)) ∧
    ∀ r' s' g, purchase_tokens r s inv amount now = .ok (r', s', g) →
      s'.total_raised ≤ s.hard_cap := by
  constructor
  · intro hcap
    have he : purchase_tokens r s inv amount now = .err .HardCapReached := by
      unfold purchase_tokens
      rw [if_neg (by omega), if_neg (by omega), if_neg (by omega),
        if_pos (by omega)]
    refine ⟨he, ?_⟩
    unfold purchase_state
    rw [he]
  · intro r' s' g h
    obtain ⟨-, -, -, hcap, -, -, -, -, -, hs', -⟩ := purchase_tokens_ok_inv h
    subst hs'
    exact hcap

/-- C4, witness: with `hard_cap = 1000` and `total_raised = 990`, a
purchase of `100` is rejected with `HardCapReached` and changes nothing. -/
theorem purchase_tokens_hard_cap_enforced_witness :
    purchase_tokens (SaleRound.mk 1 10000000000 0 0 10000000 0 0 true)
        (TokenSale.mk 0 0 0 1000 990 true) 3 100 0 =
      .err .HardCapReached ∧
    purchase_state (SaleRound.mk 1 10000000000 0 0 10000000 0 0 true)
        (TokenSale.mk 0 0 0 1000 990 true) 3 100 0 =
      (SaleRound.mk 1 10000000000 0 0 10000000 0 0 true,
       TokenSale.mk 0 0 0 1000 990 true) :=
  (purchase_tokens_hard_cap_enforced
      (SaleRound.mk 1 10000000000 0 0 10000000 0 0 true)
      (TokenSale.mk 0 0 0 1000 990 true) 3 100 0
      (by decide) (by decide) (by decide)).1 (by decide)

/-- C5: across any `purchase_tokens` transaction (successful, rejected or
aborted) the sum `tokens_available + tokens_sold` of the round is
unchanged; and on success exactly `amount * 10^9 / price_per_token` moves
from `tokens_available` to `tokens_sold`. -/
theorem purchase_tokens_conserves_supply
    (r : SaleRound) (s : TokenSale) (inv amount : Nat) (now : Int) :
    ((purchase_state r s inv amount now).1.tokens_available +
        (purchase_state r s inv amount now).1.tokens_sold =
      r.tokens_available + r.tokens_sold) ∧
    ∀ r' s' g, purchase_tokens r s inv amount now = .ok (r', s', g) →
      r'.tokens_available =
          r.tokens_available - amount * 10 ^ 9 / r.price_per_token ∧
      r'.tokens_sold =
          r.tokens_sold + amount * 10 ^ 9 / r.price_per_token := by
  constructor
  · unfold purchase_state
    cases hres : purchase_tokens r s inv amount now with
    | ok out =>
      obtain ⟨r', s', g⟩ := out
      obtain ⟨-, -, -, -, -, -, havail, -, hr', -, -⟩ :=
        purchase_tokens_ok_inv hres
      subst hr'
      dsimp only
      omega
    | err e => rfl
    | abort => rfl
  · intro r' s' g h
    obtain ⟨-, -, -, -, -, -, -, -, hr', -, -⟩ := purchase_tokens_ok_inv h
    subst hr'
    exact ⟨rfl, rfl⟩

/-- C5, witness: a concrete successful purchase conserves
`tokens_available + tokens_sold = 10^10` and moves exactly
`10^6 * 10^9 / 10^6` tokens to `tokens_sold`. -/
theorem purchase_tokens_conserves_supply_witness :
    ((purchase_state (SaleRound.mk 1000000 10000000000 0 0 10000000 0 0 true)
          (TokenSale.mk 0 0 0 10000000 0 true) 7 1000000 0).1.tokens_available +
      (purchase_state (SaleRound.mk 1000000 10000000000 0 0 10000000 0 0 true)
          (TokenSale.mk 0 0 0 10000000 0 true) 7 1000000 0).1.tokens_sold =
      10000000000 + 0) ∧
    (SaleRound.mk 1000000 9000000000 1000000000 0 10000000 0 0 true).tokens_sold
      = 0 + 1000000 * 10 ^ 9 / 1000000 := by
  refine ⟨(purchase_tokens_conserves_supply
      (SaleRound.mk 1000000 10000000000 0 0 10000000 0 0 true)
      (TokenSale.mk 0 0 0 10000000 0 true) 7 1000000 0).1, ?_⟩
  exact ((purchase_tokens_conserves_supply
      (SaleRound.mk 1000000 10000000000 0 0 10000000 0 0 true)
      (TokenSale.mk 0 0 0 10000000 0 true) 7 1000000 0).2
    (SaleRound.mk 1000000 9000000000 1000000000 0 10000000 0 0 true)
    (TokenSale.mk 0 0 0 10000000 1000000 true)
    (VestingSchedule.mk 7 1000000000 0 0 2592000) (by decide)).2

/-- C9: every successful purchase creates a vesting grant with
`total_allocation` equal to the computed token amount, `released = 0`,
`start_time` equal to the purchase-time clock value, `duration` exactly
2,592,000 seconds, and the purchaser as investor. -/
theorem purchase_tokens_creates_vesting_grant
    (r : SaleRound) (s : TokenSale) (inv amount : Nat) (now : Int)
    (r' : SaleRound) (s' : TokenSale) (g : VestingSchedule)
    (h : purchase_tokens r s inv amount now = .ok (r', s', g)) :
    g.total_allocation = amount * 10 ^ 9 / r.price_per_token ∧
    g.released = 0 ∧ g.start_time = now ∧ g.duration = 2592000 ∧
    g.investor = inv := by
  obtain ⟨-, -, -, -, -, -, -, -, -, -, hg⟩ := purchase_tokens_ok_inv h
  subst hg
  exact ⟨rfl, rfl, rfl, by norm_num, rfl⟩

/-- C9, witness at a concrete successful purchase. -/
theorem purchase_tokens_creates_vesting_grant_witness :
    (VestingSchedule.mk 7 1000000000 0 11 2592000).total_allocation =
        1000000 * 10 ^ 9 / 1000000 ∧
    (VestingSchedule.mk 7 1000000000 0 11 2592000).released = 0 ∧
    (VestingSchedule.mk 7 1000000000 0 11 2592000).start_time = 11 ∧
    (VestingSchedule.mk 7 1000000000 0 11 2592000).duration = 2592000 ∧
    (VestingSchedule.mk 7 1000000000 0 11 2592000).investor = 7 :=
  purchase_tokens_creates_vesting_grant
    (SaleRound.mk 1000000 10000000000 0 0 10000000 0 0 true)
    (TokenSale.mk 0 0 0 10000000 0 true) 7 1000000 11
    (SaleRound.mk 1000000 9000000000 1000000000 0 10000000 0 0 true)
    (TokenSale.mk 0 0 0 10000000 1000000 true)
    (VestingSchedule.mk 7 1000000000 0 11 2592000) (by decide)

/-- C7, witness at the spec's example figures: `price_per_token = 10^6`,
`amount = 2 * 10^6` yields exactly `2 * 10^9` tokens, `tokens_sold`
becomes `2 * 10^9` and `total_raised` becomes `2 * 10^6`. -/
theorem purchase_tokens_pricing_formula_witness :
    purchase_tokens (SaleRound.mk 1000000 10000000000 0 1000 10000000 0 0 true)
        (TokenSale.mk 0 0 0 10000000 0 true) 5 2000000 0 =
      .ok (SaleRound.mk 1000000 8000000000 2000000000 1000 10000000 0 0 true,
           TokenSale.mk 0 0 0 10000000 2000000 true,
           VestingSchedule.mk 5 2000000000 0 0 2592000) := by
  have h := purchase_tokens_pricing_formula
    (SaleRound.mk 1000000 10000000000 0 1000 10000000 0 0 true)
    (TokenSale.mk 0 0 0 10000000 0 true) 5 2000000 0
    (by decide) (by decide) (by decide) (by decide) (by decide) (by decide)
    (by decide) (by decide)
  exact h

/-- One pre-completion claim step: with `0 ≤ elapsed < duration` (and the
representability bounds), `claim_tokens` succeeds and releases exactly
`total_allocation * elapsed / duration`, a value computed without reading
`released`. -/
lemma claim_tokens_linear_step (v : VestingSchedule) (now : Int)
    (h0 : 0 ≤ now - v.start_time)
    (h1 : now - v.start_time < (v.duration : Int))
    (hdur : v.duration < 2 ^ 63)
    (hmul : v.total_allocation * (now - v.start_time).toNat < u64Bound)
    (hpos : 0 < linearVested v now)
    (hfit : v.released + linearVested v now < u64Bound) :
    claim_tokens v now =
      .ok ({ v with released := v.released + linearVested v now },
           linearVested v now) := by
  unfold linearVested at hpos hfit
  simp only [claim_tokens]
  rw [if_neg (by simp only [i64Bound]; omega),
    if_neg (by omega),
    if_neg (by unfold u64AsI64; rw [if_pos hdur]; omega),
    if_neg (by omega),
    if_neg (by omega),
    if_neg (by omega)]
  rfl

/-- C1: for `0 ≤ elapsed < duration` (within the `u64`/`i64` bounds and
with a positive releasable amount), the amount released is exactly
`total_allocation * elapsed / duration` — `linearVested` does not mention
`released` — and a second claim at the same instant releases the very same
amount again instead of the cumulative difference. -/
theorem claim_tokens_linear_noncumulative (v : VestingSchedule) (now : Int)
    (h0 : 0 ≤ now - v.start_time)
    (h1 : now - v.start_time < (v.duration : Int))
    (hdur : v.duration < 2 ^ 63)
    (hmul : v.total_allocation * (now - v.start_time).toNat < u64Bound)
    (hpos : 0 < linearVested v now)
    (hfit : v.released + 2 * linearVested v now < u64Bound) :
    claim_tokens v now =
      .ok ({ v with released := v.released + linearVested v now },
           linearVested v now) ∧
    claim_tokens { v with released := v.released + linearVested v now } now =
      .ok ({ v with released :=
               v.released + linearVested v now + linearVested v now },
           linearVested v now) := by
  refine ⟨claim_tokens_linear_step v now h0 h1 hdur hmul hpos (by omega), ?_⟩
  have h2 := claim_tokens_linear_step
    { v with released := v.released + linearVested v now } now h0 h1 hdur hmul
    hpos (by show v.released + linearVested v now + linearVested v now
               < u64Bound; omega)
  exact h2

/-- C1, witness: a 1,000,000-token grant at 50% of its 2,592,000-second
schedule releases 500,000 on a first claim and 500,000 again on an
immediate second claim. -/
theorem claim_tokens_linear_noncumulative_witness :
    claim_tokens ⟨0, 1000000, 0, 0, 2592000⟩ 1296000 =
      .ok (⟨0, 1000000, 500000, 0, 2592000⟩, 500000) ∧
    claim_tokens ⟨0, 1000000, 500000, 0, 2592000⟩ 1296000 =
      .ok (⟨0, 1000000, 1000000, 0, 2592000⟩, 500000) := by
  have h := claim_tokens_linear_noncumulative ⟨0, 1000000, 0, 0, 2592000⟩
    1296000 (by decide) (by decide) (by decide) (by decide) (by decide)
    (by decide)
  exact h

/-- C8: when `elapsed ≥ duration` and `released ≤ total_allocation`, a
claim releases exactly `total_allocation - released`, driving `released`
to `total_allocation`; in the boundary case `released = total_allocation`
the remainder is zero and the call is rejected with `NothingToClaim`,
leaving `released` at `total_allocation`. -/
theorem claim_tokens_full_vesting (v : VestingSchedule) (now : Int)
    (h0 : 0 ≤ now - v.start_time)
    (hfit : now - v.start_time < i64Bound)
    (hdur : (v.duration : Int) ≤ now - v.start_time)
    (hle : v.released ≤ v.total_allocation)
    (hta : v.total_allocation < u64Bound) :
    (v.released < v.total_allocation →
      claim_tokens v now =
        .ok ({ v with released := v.total_allocation },
             v.total_allocation - v.released)) ∧
    (v.released = v.total_allocation →
      claim_tokens v now = .err .NothingToClaim) := by
  have hd63 : v.duration < 2 ^ 63 := by
    simp only [i64Bound] at hfit
    omega
  constructor
  · intro hlt
    simp only [claim_tokens]
    rw [if_neg (by simp only [i64Bound] at hfit ⊢; omega),
      if_neg (by omega),
      if_pos (by unfold u64AsI64; rw [if_pos hd63]; omega),
      if_neg (by omega),
      if_neg (by omega),
      if_neg (by omega)]
    have hrel : v.released + (v.total_allocation - v.released) =
        v.total_allocation := by omega
    rw [hrel]
  · intro heq
    simp only [claim_tokens]
    rw [if_neg (by simp only [i64Bound] at hfit ⊢; omega),
      if_neg (by omega),
      if_pos (by unfold u64AsI64; rw [if_pos hd63]; omega),
      if_neg (by omega),
      if_pos (by omega)]

/-- C8, witness: a grant of 100 with 40 already released and its 50-second
duration elapsed releases exactly 60, and `released` ends at 100. -/
theorem claim_tokens_full_vesting_witness :
    claim_tokens ⟨2, 100, 40, 0, 50⟩ 60 = .ok (⟨2, 100, 100, 0, 50⟩, 60) :=
  (claim_tokens_full_vesting ⟨2, 100, 40, 0, 50⟩ 60
    (by decide) (by decide) (by decide) (by decide) (by decide)).1 (by decide)
